import Mathlib

/-!
Verification development for the senicare live check-in core.

The definitions below are shallow embeddings of the program source:
* `src/frontend/src/lib/audio.js` (audio transport codec),
* the screening helpers (`normalizeAnswer`, `completionPhrase`,
  `INITIAL_RESPONSES`) bundled with the frontend configuration,
* the two session controller variants in
  `src/frontend/src/hooks/useCheckin.js` (a Gemini-live variant and an
  ElevenLabs variant), modelled as explicit state machines, and
* the triage classifier, modelled from the specification because the
  backend service code is not part of the source tree.

JavaScript numbers are modelled as exact rationals, JavaScript strings as
Lean strings, and the single-threaded event loop as a step function over an
explicit state record consuming discrete events.
-/

namespace Senicare

/-! ## Audio transport codec (src/frontend/src/lib/audio.js) -/

/-- Clamp to the interval from -1 to 1, as in
`Math.max(-1, Math.min(1, x))`. -/
def clamp1 (x : ℚ) : ℚ := max (-1) (min 1 x)

/-- One sample of `createAudioBuffer`: clamped division by 32768
(`audio.js` lines 1-9). -/
def pcm16ToFloatSample (s : ℤ) : ℚ := clamp1 ((s : ℚ) / 32768)

/-- The float data built by `createAudioBuffer` from a PCM16 frame. -/
def pcm16ToFloat (pcm : List ℤ) : List ℚ := pcm.map pcm16ToFloatSample

/-- Truncation toward zero, the integer conversion JavaScript applies when
a number is stored into an `Int16Array`. -/
def ratTrunc (x : ℚ) : ℤ := if 0 ≤ x then ⌊x⌋ else ⌈x⌉

/-- JavaScript `ToInt16`: truncate toward zero, then wrap into the signed
16-bit range. -/
def toInt16 (x : ℚ) : ℤ := (ratTrunc x + 32768) % 65536 - 32768

/-- One sample of `floatToInt16` (`audio.js` lines 47-54): clamp, then use
the asymmetric scale (32768 for negative values, 32767 otherwise), then
store into the `Int16Array`. -/
def floatToInt16Sample (f : ℚ) : ℤ :=
  toInt16 (if clamp1 f < 0 then clamp1 f * 32768 else clamp1 f * 32767)

/-- `floatToInt16` on a whole frame. -/
def floatToInt16 (fs : List ℚ) : List ℤ := fs.map floatToInt16Sample

/-- One linearly interpolated output sample of `resampleTo16k`: `stp` is
the source-to-destination rate quotient.  Out-of-range reads are modelled
with a default of 0; for positive rates every read is in range. -/
def interpSample (input : List ℚ) (stp : ℚ) (i : ℕ) : ℚ :=
  let pos : ℚ := (i : ℚ) * stp
  let li : ℤ := ⌊pos⌋
  let ri : ℤ := min (li + 1) ((input.length : ℤ) - 1)
  let w : ℚ := pos - (li : ℚ)
  input.getD li.toNat 0 * (1 - w) + input.getD ri.toNat 0 * w

/-- `resampleTo16k` (`audio.js` lines 30-45): identity when the input rate
is 16000, otherwise linear interpolation onto
`Math.round(length / (inputRate / 16000))` output samples. -/
def resampleTo16k (input : List ℚ) (inputRate : ℚ) : List ℚ :=
  if inputRate = 16000 then input
  else
    (List.range ((round ((input.length : ℚ) / (inputRate / 16000))).toNat)).map
      (interpSample input (inputRate / 16000))

/-! ## Screening helpers (frontend screening module) -/

/-- Case-sensitive substring test, the semantics of JavaScript
`hay.includes(needle)` on character lists. -/
def containsSub (needle : List Char) : List Char → Bool
  | [] => needle.isEmpty
  | c :: t => needle.isPrefixOf (c :: t) || containsSub needle t

/-- Lower-cased character data of a string, as `text.toLowerCase()`. -/
def lowerData (s : String) : List Char := s.data.map Char.toLower

/-- JavaScript `text.trim()`: strip whitespace from both ends. -/
def jsTrim (s : String) : String :=
  ⟨((s.data.dropWhile Char.isWhitespace).reverse.dropWhile Char.isWhitespace).reverse⟩

/-- `textLower.includes(term)` for an already lower-case term. -/
def includesTerm (hay : List Char) (term : String) : Bool :=
  containsSub term.data hay

def yesTerms : List String := ["yes", "yeah", "yep", "affirmative", "true"]

def noTerms : List String := ["no", "nope", "negative", "false"]

def positiveTerms : List String :=
  ["good", "fine", "okay", "ok", "well", "great", "better"]

def negativeTerms : List String :=
  ["bad", "not good", "sick", "unwell", "awful", "worse"]

/-- `normalizeAnswer(questionIndex, text)` from the screening module:
empty text resolves to nothing; otherwise scan the lower-cased text for yes
vocabulary, then no vocabulary; only for question index 0 fall back to the
sentiment vocabularies. -/
def normalizeAnswer (questionIndex : ℕ) (text : String) : Option Bool :=
  if text = "" then none
  else
    let tl := lowerData text
    if yesTerms.any (includesTerm tl) then some true
    else if noTerms.any (includesTerm tl) then some false
    else if questionIndex = 0 then
      if positiveTerms.any (includesTerm tl) then some true
      else if negativeTerms.any (includesTerm tl) then some false
      else none
    else none

/-- The configured closing sentence the agent is told to say verbatim. -/
def completionPhrase : String :=
  "Thank you for your responses. The screening is now complete. Goodbye."

/-- A `ResponseSlot`: scripted question, recorded transcript, tri-state
answer. -/
structure Slot where
  q : String
  transcript : Option String
  answer : Option Bool
deriving DecidableEq, Repr

/-- `INITIAL_RESPONSES`: the three scripted questions with empty slots. -/
def INITIAL_RESPONSES : List Slot :=
  [ { q := "How are you feeling today?", transcript := none, answer := none },
    { q := "Are you experiencing any dizziness, chest pain, or trouble breathing?",
      transcript := none, answer := none },
    { q := "Did you take your morning medications?", transcript := none, answer := none } ]

/-! ## Triage classifier -/

inductive TriageLevel
  | GREEN
  | YELLOW
  | RED
deriving DecidableEq, Repr

structure TriageAnswers where
  dizziness : Option Bool
  chest_pain : Option Bool
  trouble_breathing : Option Bool
  medication_taken : Option Bool
deriving DecidableEq, Repr

inductive FacialStatus
  | NORMAL
  | WARN
  | ALERT
  | ERROR
  | MISSING
deriving DecidableEq, Repr

structure BaselineRecord where
  metricType : String
  mean : ℚ
  stddev : ℚ
  sampleCount : ℕ
  lastValue : ℚ
deriving DecidableEq, Repr

structure TriageResult where
  level : TriageLevel
  reasons : List String
deriving DecidableEq, Repr

/-- A tracked metric contributes a deviation signal only when its baseline
has at least 3 samples and the latest value is more than 2.5 standard
deviations from the baseline mean. -/
def baselineDeviates (b : BaselineRecord) : Bool :=
  decide (3 ≤ b.sampleCount ∧ 5 / 2 * b.stddev < |b.lastValue - b.mean|)

/-- Modelled from the spec: the backend triage service that evaluates the
ordered, first-match-wins rule list of section 4.5 is not part of the
source tree (only the architecture notes and API documentation describe
it).  Rules, in order: RED on self-reported chest pain or trouble
breathing; RED on facial ALERT with dizziness; YELLOW on facial WARN or a
baseline deviation beyond 2.5 standard deviations with at least 3 samples;
YELLOW on dizziness alone; GREEN otherwise, with a non-empty affirmative
reason. -/
def triageClassify (a : TriageAnswers) (facial : FacialStatus)
    (baselines : List BaselineRecord) : TriageResult :=
  if a.chest_pain = some true ∨ a.trouble_breathing = some true then
    { level := .RED,
      reasons :=
        (if a.chest_pain = some true then ["Self-reported chest pain"] else []) ++
        (if a.trouble_breathing = some true then ["Self-reported trouble breathing"] else []) }
  else if facial = .ALERT ∧ a.dizziness = some true then
    { level := .RED,
      reasons := ["Facial signal alert combined with self-reported dizziness"] }
  else if facial = .WARN ∨ baselines.any baselineDeviates then
    { level := .YELLOW,
      reasons :=
        (if facial = .WARN then ["Facial signal warning"] else []) ++
        (if baselines.any baselineDeviates then
          ["Tracked metric deviates from its baseline beyond 2.5 standard deviations"]
        else []) }
  else if a.dizziness = some true then
    { level := .YELLOW, reasons := ["Self-reported dizziness"] }
  else
    { level := .GREEN, reasons := ["No concerning findings reported"] }

/-! ## Gemini live session controller (useCheckin.js, first variant)

The hook keeps its session bookkeeping in mutable refs and reacts to
platform callbacks (agent audio parts, agent text parts, recognizer
results, the 500 ms completion interval, stop).  The event loop is
single threaded, so the controller is modelled as a step function over an
explicit state record consuming one discrete event at a time.  The
asynchronous `handleCompletion().finally(stopVoice)` chain is modelled by
counting the `handleCompletion` invocation at the triggering event and
delivering the deferred `stopVoice` as a later event, exactly as the
JavaScript task queue schedules it. -/

structure GState where
  heardAudio : Bool
  completionSent : Bool
  completionPrompted : Bool
  completionPromptAt : Option ℕ
  lastAudioAt : Option ℕ
  lastAiAudioAt : Option ℕ
  lastAiBurstAt : Option ℕ
  aiTurnCount : ℕ
  voiceStartAt : Option ℕ
  currentQuestionIndex : ℕ
  responses : List Slot
  isSessionOpen : Bool
  timerSet : Bool
  nudgeSet : Bool
  recognitionSet : Bool
  processorSet : Bool
  micSet : Bool
  cameraSet : Bool
  ctxOpen : Bool
  sessionSet : Bool
  finalizeCount : ℕ
  promptCount : ℕ
  timerClears : ℕ
  nudgeClears : ℕ
  recStops : ℕ
  procDisconnects : ℕ
  micStops : ℕ
  camStops : ℕ
  ctxCloses : ℕ
  sessionCloses : ℕ
deriving DecidableEq, Repr

/-- The controller state right after `startVoice` finished its setup:
clean aggregation state, live resources, instrumentation counters at
zero.  `t0` is the session start time recorded in `voiceStartAtRef`. -/
def initialGState (t0 : ℕ) : GState :=
  { heardAudio := false, completionSent := false, completionPrompted := false,
    completionPromptAt := none, lastAudioAt := none, lastAiAudioAt := none,
    lastAiBurstAt := none, aiTurnCount := 0, voiceStartAt := some t0,
    currentQuestionIndex := 0, responses := INITIAL_RESPONSES,
    isSessionOpen := true, timerSet := true, nudgeSet := true,
    recognitionSet := true, processorSet := true, micSet := true,
    cameraSet := false, ctxOpen := true, sessionSet := true,
    finalizeCount := 0, promptCount := 0, timerClears := 0, nudgeClears := 0,
    recStops := 0, procDisconnects := 0, micStops := 0, camStops := 0,
    ctxCloses := 0, sessionCloses := 0 }

/-- Clearing one `ResponseSlot`, as the reset map inside `cleanupAudio`. -/
def resetSlot (sl : Slot) : Slot := { sl with transcript := none, answer := none }

/-- `cleanupAudio` (`useCheckin.js` lines 111-160): clear both timers,
null out the heuristic refs, reset the aggregation state, stop the
recognizer, disconnect the processor, stop microphone and camera tracks,
and close the audio context — every release guarded by a null check that
also nulls the ref, counted by ghost counters. -/
def cleanupAudio (s : GState) : GState :=
  { s with
    timerSet := false
    timerClears := s.timerClears + (if s.timerSet then 1 else 0)
    nudgeSet := false
    nudgeClears := s.nudgeClears + (if s.nudgeSet then 1 else 0)
    lastAudioAt := none
    lastAiAudioAt := none
    lastAiBurstAt := none
    heardAudio := false
    completionSent := false
    completionPrompted := false
    completionPromptAt := none
    aiTurnCount := 0
    currentQuestionIndex := 0
    responses := s.responses.map resetSlot
    recognitionSet := false
    recStops := s.recStops + (if s.recognitionSet then 1 else 0)
    processorSet := false
    procDisconnects := s.procDisconnects + (if s.processorSet then 1 else 0)
    micSet := false
    micStops := s.micStops + (if s.micSet then 1 else 0)
    cameraSet := false
    camStops := s.camStops + (if s.cameraSet then 1 else 0)
    ctxOpen := false
    ctxCloses := s.ctxCloses + (if s.ctxOpen then 1 else 0) }

/-- `stopVoice` (`useCheckin.js` lines 162-171): mark the session closed,
run `cleanupAudio`, and close the remote session if its ref is still
set. -/
def stopVoiceG (s : GState) : GState :=
  let s1 := cleanupAudio { s with isSessionOpen := false }
  { s1 with
    sessionSet := false
    sessionCloses := s1.sessionCloses + (if s1.sessionSet then 1 else 0) }

/-- `maybePromptCompletion` (`useCheckin.js` lines 189-197): at most one
closing-script request per session, stamped with the request time. -/
def maybePromptCompletion (now : ℕ) (s : GState) : GState :=
  if s.completionPrompted then s
  else { s with completionPrompted := true, completionPromptAt := some now,
                promptCount := s.promptCount + 1 }

/-- JavaScript truthiness of a slot transcript: non-null and non-empty,
the `item.transcript` filter in the answered-count checks. -/
def transcriptTruthy (r : Slot) : Bool := r.transcript.getD "" ≠ ""

/-- `onmessage` inline-audio branch (`useCheckin.js` lines 343-373):
record audio timestamps, start a new agent turn after a 1 s burst gap, and
derive the current question index from the turn count. -/
def stepAudioPart (now : ℕ) (s : GState) : GState :=
  if s.ctxOpen then
    let newBurst : Bool :=
      match s.lastAiBurstAt with
      | none => true
      | some b => decide (1000 < now - b)
    let cnt := if newBurst then s.aiTurnCount + 1 else s.aiTurnCount
    let raw : ℤ := (cnt : ℤ) - 2
    let cap : ℤ := (s.responses.length : ℤ) - 1
    let qIdx :=
      if newBurst then (if raw ≤ cap then raw else cap).toNat
      else s.currentQuestionIndex
    { s with lastAudioAt := some now, lastAiAudioAt := some now,
             aiTurnCount := cnt, currentQuestionIndex := qIdx,
             lastAiBurstAt := some now, heardAudio := true }
  else s

/-- `onmessage` text branch (`useCheckin.js` lines 375-386): when the
decoded agent text contains the completion phrase, invoke
`handleCompletion` (the finalize sequence); the chained `stopVoice` is
scheduled asynchronously and arrives as a later event. -/
def stepTextPart (text : String) (s : GState) : GState :=
  if containsSub completionPhrase.data text.data then
    { s with finalizeCount := s.finalizeCount + 1 }
  else s

/-- `recognition.onresult` (`useCheckin.js` lines 478-497): a finalized
non-empty transcript is written into the current slot (replacing any
previous transcript), the answer is recomputed, and once every slot is
answered the closing script is requested. -/
def stepRecResult (now : ℕ) (transcript : String) (s : GState) : GState :=
  if s.recognitionSet then
    let t := jsTrim transcript
    if t = "" then s
    else
      let idx := s.currentQuestionIndex
      let updated :=
        match s.responses.get? idx with
        | some r =>
            s.responses.set idx
              { r with transcript := some t, answer := normalizeAnswer idx t }
        | none => s.responses
      let s1 := { s with responses := updated }
      if s1.responses.length ≤ (s1.responses.filter transcriptTruthy).length then
        maybePromptCompletion now s1
      else s1
  else s

/-- The 500 ms completion interval body (`useCheckin.js` lines 509-551),
evaluated in priority order: (a) all slots answered, not yet prompted and
agent idle 1.5 s — request the closing script; (b) already prompted and
both the agent idle time and the request age reach 4.5 s — mark completion
sent and invoke the finalize sequence; (c) at least 4 agent turns, 6 s
idle and an 18 s old session — treat as stalled and request the closing
script. -/
def stepTick (now : ℕ) (s : GState) : GState :=
  if s.timerSet then
    if !s.heardAudio || s.completionSent then s
    else
      match s.lastAudioAt with
      | none => s
      | some lastAt =>
        let idleMs := now - lastAt
        let sessionMs := now - s.voiceStartAt.getD 0
        let aiIdleMs := match s.lastAiAudioAt with | some ta => now - ta | none => 0
        let answered := (s.responses.filter transcriptTruthy).length
        if s.responses.length ≤ answered ∧ ¬ s.completionPrompted ∧ 1500 ≤ aiIdleMs then
          maybePromptCompletion now s
        else if s.completionPrompted then
          let promptAgeMs := now - s.completionPromptAt.getD now
          if 4500 ≤ aiIdleMs ∧ 4500 ≤ promptAgeMs then
            { s with completionSent := true, finalizeCount := s.finalizeCount + 1 }
          else s
        else if 4 ≤ s.aiTurnCount ∧ 6000 ≤ idleMs ∧ 18000 ≤ sessionMs then
          maybePromptCompletion now s
        else s
  else s

inductive GEvent
  | audioPart (now : ℕ)
  | textPart (now : ℕ) (text : String)
  | recResult (now : ℕ) (transcript : String)
  | tick (now : ℕ)
  | stopEv
deriving DecidableEq, Repr

def stepG (s : GState) (e : GEvent) : GState :=
  match e with
  | .audioPart now => stepAudioPart now s
  | .textPart _ text => stepTextPart text s
  | .recResult now t => stepRecResult now t s
  | .tick now => stepTick now s
  | .stopEv => stopVoiceG s

/-- Run the Gemini controller from the post-`startVoice` state over a
list of events. -/
def runG (events : List GEvent) (t0 : ℕ) : GState :=
  events.foldl stepG (initialGState t0)

/-! ## ElevenLabs session controller (useCheckin.js, second variant) -/

inductive ConvMode
  | speaking
  | listening
deriving DecidableEq, Repr

structure EState where
  lastUserMessage : Option String
  currentQuestionIndex : ℕ
  responses : List Slot
  lastMode : ConvMode
  finalizePending : Bool
  finalizeStarted : Bool
  cameraStarted : Bool
  introPending : Bool
  finalizeTimeoutSet : Bool
deriving DecidableEq, Repr

/-- The reset block at the top of the ElevenLabs `startVoice`
(`useCheckin.js` lines 954-967): fresh aggregation state and cleared
finalize machinery for the new run. -/
def elevenStartReset (s : EState) : EState :=
  { s with lastUserMessage := none, currentQuestionIndex := 0,
           responses := INITIAL_RESPONSES, lastMode := .listening,
           finalizePending := false, finalizeStarted := false,
           cameraStarted := false, introPending := false,
           finalizeTimeoutSet := false }

/-- The `source === "user"` branch of the ElevenLabs `onMessage`
(`useCheckin.js` lines 1117-1132): ignore empty and duplicate messages,
then append the new transcript to the current slot and recompute its
answer from the merged text. -/
def onUserMessage (s : EState) (msg : String) : EState :=
  let text := jsTrim msg
  if text = "" then s
  else if s.lastUserMessage = some text then s
  else
    let idx := s.currentQuestionIndex
    let response :=
      ((s.responses.get? idx).getD
        ((s.responses.get? 0).getD { q := "", transcript := none, answer := none }))
    let merged :=
      match response.transcript with
      | some t => jsTrim (t ++ " " ++ text)
      | none => text
    { s with lastUserMessage := some text,
             responses := s.responses.set idx
               { response with transcript := some merged,
                               answer := normalizeAnswer idx merged } }

/-! ## Concrete traces and states used by individual theorems -/

/-- The sample text of claim C5, the contraction of I am followed by
feeling great today. -/
def feelingGreatText : String :=
  "I" ++ String.singleton (Char.ofNat 39) ++ "m feeling great today"

/-- Every slot carries a non-null transcript. -/
def allSlotTranscripts (l : List Slot) : Bool :=
  l.all (fun r => r.transcript.isSome)

/-- A run of the Gemini controller in which the interval heuristic and the
literal completion phrase both fire: four agent audio bursts interleaved
with three final transcripts (the third one triggers the closing-script
request at 7 s), then a 500 ms tick at 12 s whose prompted branch fires
the fallback finalize, then the agent text with the completion phrase
100 ms later, inside the same polling interval, before the asynchronous
`stopVoice` of the first finalize has run. -/
def gTraceC1 : List GEvent :=
  [ .audioPart 1000, .recResult 1500 "I feel great", .audioPart 2600,
    .audioPart 4000, .recResult 4500 "no", .audioPart 6000,
    .recResult 7000 "yes", .tick 12000, .textPart 12100 completionPhrase ]

/-- A run with four agent turns and no recognized transcript at all,
stalled until a tick at 19 s. -/
def gTraceC3 : List GEvent :=
  [ .audioPart 1000, .audioPart 2100, .audioPart 3300, .audioPart 4500,
    .tick 19000 ]

/-- One agent burst followed by a first final transcript on question 0. -/
def gTraceC6pre : List GEvent :=
  [ .audioPart 1000, .recResult 1500 "hello there" ]

/-- The same run continued with a second, different final transcript while
question 0 is still current. -/
def gTraceC6 : List GEvent := gTraceC6pre ++ [.recResult 2000 "doing well"]

/-- Agent text that strictly contains the completion phrase without being
equal to it. -/
def textC4Super : String := "Okay. " ++ completionPhrase

/-- A controller state in which the closing script was already
requested. -/
def promptedG : GState := { initialGState 0 with completionPrompted := true }

/-- An ElevenLabs controller state on question 1 with an existing
transcript in the current slot. -/
def eWitBase : EState :=
  { lastUserMessage := none, currentQuestionIndex := 1,
    responses :=
      [ { q := "How are you feeling today?", transcript := some "pretty good",
          answer := some true },
        { q := "Are you experiencing any dizziness, chest pain, or trouble breathing?",
          transcript := some "a little dizzy", answer := none },
        { q := "Did you take your morning medications?", transcript := none,
          answer := none } ],
    lastMode := .listening, finalizePending := false, finalizeStarted := false,
    cameraStarted := false, introPending := false, finalizeTimeoutSet := false }

/-- The same state right after having already processed the exact message
that is about to be delivered again. -/
def eWitDup : EState := { eWitBase with lastUserMessage := some "not right now" }

/-! ## Theorems: pure components -/

/-- Claim C2: the first triage rule is first-match-wins RED on self-reported
chest pain or trouble breathing, with a reason naming the triggering
symptom, for every combination of the remaining inputs. -/
theorem triage_rule1_red (a : TriageAnswers) (facial : FacialStatus)
    (baselines : List BaselineRecord)
    (h : a.chest_pain = some true ∨ a.trouble_breathing = some true) :
    (triageClassify a facial baselines).level = .RED ∧
    (a.chest_pain = some true →
      (triageClassify a facial baselines).reasons.any
        (fun r => containsSub "chest pain".data r.data) = true) ∧
    (a.trouble_breathing = some true →
      (triageClassify a facial baselines).reasons.any
        (fun r => containsSub "trouble breathing".data r.data) = true) := by
  unfold triageClassify
  rw [if_pos h]
  refine ⟨rfl, fun hc => ?_, fun hb => ?_⟩
  · rw [if_pos hc]
    by_cases hb : a.trouble_breathing = some true
    · rw [if_pos hb]; decide
    · rw [if_neg hb]; decide
  · rw [if_pos hb]
    by_cases hc : a.chest_pain = some true
    · rw [if_pos hc]; decide
    · rw [if_neg hc]; decide

/-- Witness for C2 at a concrete input: chest pain reported, everything
else clear. -/
theorem triage_rule1_red_witness :
    (triageClassify ⟨none, some true, none, none⟩ .NORMAL []).level = .RED ∧
    (some true = some true →
      (triageClassify ⟨none, some true, none, none⟩ .NORMAL []).reasons.any
        (fun r => containsSub "chest pain".data r.data) = true) ∧
    (none = some true →
      (triageClassify ⟨none, some true, none, none⟩ .NORMAL []).reasons.any
        (fun r => containsSub "trouble breathing".data r.data) = true) :=
  triage_rule1_red ⟨none, some true, none, none⟩ .NORMAL [] (Or.inl rfl)

/-- Claim C5: concrete evaluations of `normalizeAnswer`, and for question
indices other than 0 the absence of yes and no vocabulary yields an
unresolved answer. -/
theorem normalizeAnswer_spec :
    normalizeAnswer 0 feelingGreatText = some true ∧
    normalizeAnswer 1 "no I am not" = some false ∧
    normalizeAnswer 2 "yes I did" = some true ∧
    normalizeAnswer 0 "" = none ∧
    ∀ (i : ℕ) (text : String), i ≠ 0 →
      yesTerms.any (includesTerm (lowerData text)) = false →
      noTerms.any (includesTerm (lowerData text)) = false →
      normalizeAnswer i text = none := by
  refine ⟨by decide, by decide, by decide, by decide, fun i text hi hy hn => ?_⟩
  unfold normalizeAnswer
  by_cases he : text = ""
  · rw [if_pos he]
  · rw [if_neg he]
    simp only [hy, hn, if_neg hi, Bool.false_eq_true, if_false]

/-- Witness for the quantified part of C5 at index 2 and text with neither
yes nor no vocabulary. -/
theorem normalizeAnswer_spec_witness :
    normalizeAnswer 2 "maybe later" = none :=
  normalizeAnswer_spec.2.2.2.2 2 "maybe later" (by decide) (by decide) (by decide)

/-- Claim C7: `resampleTo16k` is the identity at the wire rate, and for every
positive source rate the output length is the rounding of
length times 16000 over the source rate. -/
theorem resample_identity_and_length (input : List ℚ) (r : ℚ) (hr : 0 < r) :
    resampleTo16k input 16000 = input ∧
    (resampleTo16k input r).length =
      (round ((input.length : ℚ) * 16000 / r)).toNat := by
  constructor
  · simp [resampleTo16k]
  · by_cases h : r = 16000
    · subst h
      have hv : ((input.length : ℚ) * 16000 / 16000) = (input.length : ℚ) := by
        field_simp
      simp [resampleTo16k, hv]
    · have hne : r ≠ 0 := ne_of_gt hr
      have hv : ((input.length : ℚ) / (r / 16000)) =
          ((input.length : ℚ) * 16000 / r) := by
        field_simp
      simp only [resampleTo16k, if_neg h, List.length_map, List.length_range]
      rw [hv]

/-- Witness for C7 at a three-sample frame and a 48 kHz source rate. -/
theorem resample_identity_and_length_witness :
    resampleTo16k [1, 2, 3] 16000 = [1, 2, 3] ∧
    (resampleTo16k [1, 2, 3] 48000).length =
      (round (((3 : ℕ) : ℚ) * 16000 / 48000)).toNat := by
  have h := resample_identity_and_length [1, 2, 3] 48000 (by norm_num)
  exact ⟨h.1, h.2⟩

/-- One-sample round trip: decoding a 16-bit PCM sample to clamped float
form and re-quantizing with the asymmetric scale lands within one
quantization step. -/
theorem roundtrip_sample (s : ℤ) (h1 : -32768 ≤ s) (h2 : s ≤ 32767) :
    (floatToInt16Sample (pcm16ToFloatSample s) - s).natAbs ≤ 1 := by
  have hpos : (0 : ℚ) < 32768 := by norm_num
  have hq1 : (-1 : ℚ) ≤ (s : ℚ) / 32768 := by
    rw [le_div_iff hpos]
    have : ((-32768 : ℤ) : ℚ) ≤ (s : ℚ) := by exact_mod_cast h1
    push_cast at this ⊢
    linarith
  have hq2 : (s : ℚ) / 32768 ≤ 1 := by
    rw [div_le_one hpos]
    have : ((s : ℤ) : ℚ) ≤ ((32767 : ℤ) : ℚ) := by exact_mod_cast h2
    push_cast at this ⊢
    linarith
  have hclamp : clamp1 ((s : ℚ) / 32768) = (s : ℚ) / 32768 := by
    unfold clamp1
    rw [min_eq_right hq2, max_eq_right hq1]
  simp only [floatToInt16Sample, pcm16ToFloatSample, hclamp]
  by_cases hs : (s : ℚ) / 32768 < 0
  · rw [if_pos hs]
    have hmul : (s : ℚ) / 32768 * 32768 = (s : ℚ) := by field_simp
    rw [hmul]
    have htr : ratTrunc ((s : ℤ) : ℚ) = s := by
      unfold ratTrunc
      split
      · exact Int.floor_intCast s
      · exact Int.ceil_intCast s
    unfold toInt16
    rw [htr, Int.emod_eq_of_lt (by omega) (by omega)]
    omega
  · rw [if_neg hs]
    push_neg at hs
    have hs0 : (0 : ℚ) ≤ (s : ℚ) := by
      have := (le_div_iff hpos).mp hs
      linarith
    have hv0 : (0 : ℚ) ≤ (s : ℚ) / 32768 * 32767 := by positivity
    have hveq : (s : ℚ) / 32768 * 32767 = (s : ℚ) - (s : ℚ) / 32768 := by
      field_simp
      ring
    have hvs : (s : ℚ) / 32768 * 32767 ≤ (s : ℚ) := by
      rw [hveq]
      have : (0 : ℚ) ≤ (s : ℚ) / 32768 := by positivity
      linarith
    have hvlb : (s : ℚ) - 1 ≤ (s : ℚ) / 32768 * 32767 := by
      rw [hveq]
      linarith
    have htr : ratTrunc ((s : ℚ) / 32768 * 32767) = ⌊(s : ℚ) / 32768 * 32767⌋ := by
      unfold ratTrunc
      rw [if_pos hv0]
    have hfl1 : ⌊(s : ℚ) / 32768 * 32767⌋ ≤ s := by
      have := Int.floor_le_floor hvs
      rwa [Int.floor_intCast] at this
    have hfl2 : s - 1 ≤ ⌊(s : ℚ) / 32768 * 32767⌋ := by
      apply Int.le_floor.mpr
      push_cast
      linarith
    have hfl0 : 0 ≤ ⌊(s : ℚ) / 32768 * 32767⌋ := Int.floor_nonneg.mpr hv0
    unfold toInt16
    rw [htr, Int.emod_eq_of_lt (by omega) (by omega)]
    omega

/-- Claim C8: decoding a quantized 16-bit PCM frame and re-quantizing it keeps
the length and reproduces every original sample within one quantization
step. -/
theorem quantization_roundtrip (pcm : List ℤ)
    (hb : ∀ s ∈ pcm, -32768 ≤ s ∧ s ≤ 32767) :
    (floatToInt16 (pcm16ToFloat pcm)).length = pcm.length ∧
    ∀ (i : ℕ) (s : ℤ), pcm.get? i = some s →
      ∃ q, (floatToInt16 (pcm16ToFloat pcm)).get? i = some q ∧
        (q - s).natAbs ≤ 1 := by
  constructor
  · simp [floatToInt16, pcm16ToFloat]
  · intro i s hgs
    refine ⟨floatToInt16Sample (pcm16ToFloatSample s), ?_, ?_⟩
    · simp only [floatToInt16, pcm16ToFloat, List.map_map, List.get?_map, hgs,
        Option.map_some', Function.comp_apply]
    · have hmem : s ∈ pcm := List.get?_mem hgs
      exact roundtrip_sample s (hb s hmem).1 (hb s hmem).2

/-- Witness for C8 on a concrete frame covering the extreme samples. -/
theorem quantization_roundtrip_witness :
    (floatToInt16 (pcm16ToFloat [-32768, -1, 0, 1, 32767])).length =
      ([-32768, -1, 0, 1, 32767] : List ℤ).length ∧
    ∃ q, (floatToInt16 (pcm16ToFloat [-32768, -1, 0, 1, 32767])).get? 4 = some q ∧
      (q - 32767).natAbs ≤ 1 := by
  have h := quantization_roundtrip [-32768, -1, 0, 1, 32767] (by decide)
  exact ⟨h.1, h.2 4 32767 (by decide)⟩

/-! ## Theorems: session controller -/

theorem resetSlot_resetSlot (sl : Slot) : resetSlot (resetSlot sl) = resetSlot sl := rfl

theorem filter_full_all {α : Type} (p : α → Bool) (l : List α)
    (h : l.length ≤ (l.filter p).length) : l.all p = true := by
  induction l with
  | nil => rfl
  | cons a t ih =>
    by_cases hp : p a = true
    · rw [List.all_cons, hp, Bool.true_and]
      refine ih ?_
      rw [List.filter_cons_of_pos hp] at h
      simpa using h
    · exfalso
      rw [List.filter_cons_of_neg (by simpa using hp)] at h
      have := List.length_filter_le p t
      simp [List.length_cons] at h
      omega

theorem truthy_isSome (r : Slot) (h : transcriptTruthy r = true) :
    r.transcript.isSome = true := by
  cases hr : r.transcript with
  | none => rw [transcriptTruthy, hr] at h; simp at h
  | some t => simp

theorem full_implies_all (l : List Slot)
    (h : l.length ≤ (l.filter transcriptTruthy).length) :
    allSlotTranscripts l = true := by
  have hall := filter_full_all transcriptTruthy l h
  rw [allSlotTranscripts, List.all_eq_true]
  rw [List.all_eq_true] at hall
  intro x hx
  exact truthy_isSome x (hall x hx)

/-- Claim C1, failing run: in the Gemini controller there is a run in which both
completion detections fire and the finalize sequence (`handleCompletion`)
is invoked twice — once by the prompted branch of the interval heuristic
(which sets `completionSentRef`) and once by the literal-phrase branch,
which performs no guard check at all.  Exactly one closing-script request
was made, yet the finalize counter reaches 2, contradicting the claimed
exactly-once guarantee. -/
theorem gemini_double_finalize :
    (runG gTraceC1 0).promptCount = 1 ∧
    (runG gTraceC1 0).completionSent = true ∧
    (runG gTraceC1 0).finalizeCount = 2 := by decide

/-- Claim C3, counterexample: the stalled-session branch of the interval
evaluator issues the closing-script request while no ResponseSlot carries
any transcript, refuting the claim that the request is never issued before
all three slots are filled. -/
theorem stalled_prompt_counterexample :
    (runG gTraceC3 0).promptCount = 1 ∧
    (runG gTraceC3 0).completionPrompted = true ∧
    (runG gTraceC3 0).responses.all (fun r => r.transcript.isNone) = true := by
  decide

/-- Claim C3, amended: whenever a step of the Gemini controller raises the
closing-script request flag, either all ResponseSlots carry a non-null
transcript after that step, or the event was an interval tick satisfying
the stalled-session heuristic (at least 4 agent turns, 6 s audio idle,
18 s session age). -/
theorem prompt_gated (s : GState) (e : GEvent)
    (h : (stepG s e).completionPrompted = true) :
    s.completionPrompted = true ∨
    allSlotTranscripts (stepG s e).responses = true ∨
    (∃ now, e = GEvent.tick now ∧
      4 ≤ s.aiTurnCount ∧ 6000 ≤ now - s.lastAudioAt.getD 0 ∧
      18000 ≤ now - s.voiceStartAt.getD 0) := by
  cases e with
  | audioPart now =>
    left
    simpa [stepG, stepAudioPart, apply_ite (GState.completionPrompted)] using h
  | textPart now text =>
    left
    simpa [stepG, stepTextPart, apply_ite (GState.completionPrompted)] using h
  | stopEv =>
    exfalso
    simp [stepG, stopVoiceG, cleanupAudio] at h
  | recResult now t =>
    simp only [stepG, stepRecResult] at h ⊢
    by_cases hrec : s.recognitionSet = true
    · simp only [hrec, if_true] at h ⊢
      by_cases htrim : jsTrim t = ""
      · simp only [htrim, if_pos rfl] at h ⊢
        exact Or.inl h
      · simp only [if_neg htrim] at h ⊢
        set updated := (match s.responses.get? s.currentQuestionIndex with
          | some r => s.responses.set s.currentQuestionIndex
              { r with transcript := some (jsTrim t),
                       answer := normalizeAnswer s.currentQuestionIndex (jsTrim t) }
          | none => s.responses) with hupd
        by_cases hfull : ({s with responses := updated} : GState).responses.length ≤
            (({s with responses := updated} : GState).responses.filter transcriptTruthy).length
        · by_cases hp : s.completionPrompted = true
          · exact Or.inl hp
          · right; left
            simp only [hfull, if_true, maybePromptCompletion]
            rw [if_neg hp]
            exact full_implies_all _ hfull
        · simp only [if_neg hfull] at h ⊢
          exact Or.inl h
    · simp only [Bool.not_eq_true] at hrec
      simp only [hrec, Bool.false_eq_true, if_false] at h
      exact Or.inl h
  | tick now =>
    simp only [stepG, stepTick] at h ⊢
    by_cases htimer : s.timerSet = true
    · simp only [htimer, if_true] at h ⊢
      by_cases hguard : (!s.heardAudio || s.completionSent) = true
      · simp only [hguard, if_pos rfl] at h ⊢
        exact Or.inl h
      · simp only [hguard, Bool.false_eq_true, if_false] at h ⊢
        cases hla : s.lastAudioAt with
        | none => simp only [hla] at h; exact Or.inl h
        | some lastAt =>
          simp only [hla] at h ⊢
          split at h
          next hc1 =>
            by_cases hp : s.completionPrompted = true
            · exact Or.inl hp
            · right; left
              rw [if_pos hc1]
              simp only [maybePromptCompletion]
              rw [if_neg hp]
              exact full_implies_all _ hc1.1
          next hc1 =>
            split at h
            next hp => exact Or.inl hp
            next hp =>
              split at h
              next hc3 =>
                right; right
                refine ⟨now, rfl, hc3.1, ?_, hc3.2.2⟩
                simpa using hc3.2.1
              next hc3 =>
                exact Or.inl h
    · simp only [Bool.not_eq_true] at htimer
      simp only [htimer, Bool.false_eq_true, if_false] at h
      exact Or.inl h

/-- Witness for the amended C3 at a state whose closing script was already
requested, under an agent audio event. -/
theorem prompt_gated_witness :
    promptedG.completionPrompted = true ∨
    allSlotTranscripts (stepG promptedG (GEvent.audioPart 5)).responses = true ∨
    (∃ now, GEvent.audioPart 5 = GEvent.tick now ∧
      4 ≤ promptedG.aiTurnCount ∧ 6000 ≤ now - promptedG.lastAudioAt.getD 0 ∧
      18000 ≤ now - promptedG.voiceStartAt.getD 0) :=
  prompt_gated promptedG (GEvent.audioPart 5) (by decide)

/-- Claim C4, counterexample: agent text that contains the completion phrase
without being equal to it still triggers the literal-phrase completion
path of the Gemini controller, refuting the exact-match claim. -/
theorem literal_substring_counterexample :
    textC4Super ≠ completionPhrase ∧
    (stepTextPart textC4Super (initialGState 0)).finalizeCount = 1 := by decide

/-- Claim C4, amended: the Gemini literal-detection branch invokes the finalize
sequence in the very step that delivers the text — with no interval
heuristic involved — exactly when the decoded agent text contains the
configured closing sentence as a substring. -/
theorem literal_finalize_by_substring (s : GState) (text : String) :
    (stepTextPart text s).finalizeCount =
      s.finalizeCount +
        (if containsSub completionPhrase.data text.data then 1 else 0) := by
  by_cases hc : containsSub completionPhrase.data text.data = true
  · simp [stepTextPart, hc]
  · simp [stepTextPart, hc]

/-- Claim C6, counterexample: in the Gemini controller a second final recognizer
transcript delivered while question 0 is still current replaces the
recorded transcript instead of being appended to it. -/
theorem recognizer_replace_counterexample :
    (runG gTraceC6pre 0).responses.map (fun r => r.transcript) =
      [some "hello there", none, none] ∧
    (runG gTraceC6 0).responses.map (fun r => r.transcript) =
      [some "doing well", none, none] ∧
    (some "doing well" : Option String) ≠ some "hello there doing well" := by
  decide

/-- Claim C6, amended: in the ElevenLabs controller a non-empty, non-duplicate
user message is appended to the existing transcript of the current slot
and the answer is recomputed from the merged text, while a message equal
to the immediately preceding one leaves the whole state unchanged. -/
theorem eleven_append_and_dedup :
    (∀ (s : EState) (msg : String) (r : Slot) (t : String),
      jsTrim msg ≠ "" →
      s.lastUserMessage ≠ some (jsTrim msg) →
      s.responses.get? s.currentQuestionIndex = some r →
      r.transcript = some t →
      (onUserMessage s msg).responses.get? s.currentQuestionIndex =
        some { q := r.q,
               transcript := some (jsTrim (t ++ " " ++ jsTrim msg)),
               answer := normalizeAnswer s.currentQuestionIndex
                 (jsTrim (t ++ " " ++ jsTrim msg)) }) ∧
    (∀ (s : EState) (msg : String),
      s.lastUserMessage = some (jsTrim msg) → onUserMessage s msg = s) := by
  constructor
  · intro s msg r t hne hdup hget htr
    have hlt : s.currentQuestionIndex < s.responses.length := by
      rcases List.get?_eq_some.mp hget with ⟨hl, _⟩
      exact hl
    simp only [onUserMessage, if_neg hne, if_neg hdup, hget, Option.getD_some, htr]
    rw [List.get?_set_eq_of_lt _ hlt]
  · intro s msg hdup
    unfold onUserMessage
    by_cases he : jsTrim msg = ""
    · rw [if_pos he]
    · rw [if_neg he, if_pos hdup]

/-- Witness for the amended C6: appending to a slot that already holds a
transcript, and ignoring an exact duplicate of the previous message. -/
theorem eleven_append_and_dedup_witness :
    (onUserMessage eWitBase "not really").responses.get? 1 =
      some { q := "Are you experiencing any dizziness, chest pain, or trouble breathing?",
             transcript := some (jsTrim ("a little dizzy" ++ " " ++ jsTrim "not really")),
             answer := normalizeAnswer 1
               (jsTrim ("a little dizzy" ++ " " ++ jsTrim "not really")) } ∧
    onUserMessage eWitDup "not right now" = eWitDup :=
  ⟨eleven_append_and_dedup.1 eWitBase "not really"
      { q := "Are you experiencing any dizziness, chest pain, or trouble breathing?",
        transcript := some "a little dizzy", answer := none }
      "a little dizzy" (by decide) (by decide) (by decide) rfl,
   eleven_append_and_dedup.2 eWitDup "not right now" (by decide)⟩

/-- Claim C9: `stopVoice` is idempotent — a second call finds every handle
already nulled, so it performs no release (all ghost release counters are
unchanged) and leaves the state exactly as the first call did; since every
release is guarded by the null check, no operation is ever invoked on an
absent resource, so the second call cannot throw. -/
theorem stopVoice_idempotent (s : GState) :
    stopVoiceG (stopVoiceG s) = stopVoiceG s := by
  simp [stopVoiceG, cleanupAudio, List.map_map, Function.comp, resetSlot_resetSlot]

/-- Claim C10: tearing a session down (Gemini `cleanupAudio`) and starting one
(ElevenLabs `startVoice` reset block) both leave the aggregation state
initial: every slot transcript and answer null, question index 0, all
completion and finalize flags cleared, timers cleared, so nothing from a
previous session remains observable. -/
theorem session_reset_initial (s : GState) (e : EState) :
    (cleanupAudio s).responses.all
      (fun r => r.transcript.isNone && r.answer.isNone) = true ∧
    (cleanupAudio s).currentQuestionIndex = 0 ∧
    (cleanupAudio s).completionSent = false ∧
    (cleanupAudio s).completionPrompted = false ∧
    (cleanupAudio s).completionPromptAt = none ∧
    (cleanupAudio s).timerSet = false ∧
    (cleanupAudio s).nudgeSet = false ∧
    (elevenStartReset e).responses.all
      (fun r => r.transcript.isNone && r.answer.isNone) = true ∧
    (elevenStartReset e).currentQuestionIndex = 0 ∧
    (elevenStartReset e).lastUserMessage = none ∧
    (elevenStartReset e).finalizePending = false ∧
    (elevenStartReset e).finalizeStarted = false ∧
    (elevenStartReset e).finalizeTimeoutSet = false := by
  refine ⟨?_, rfl, rfl, rfl, rfl, rfl, rfl, rfl, rfl, rfl, rfl, rfl, rfl⟩
  simp [cleanupAudio, List.all_eq_true, resetSlot]

end Senicare
